import Mathlib

/-!
Shallow embedding of the identifier-extraction core of
`src/label-pdf-processor.js`: `extractOrderNumber` (lines 196-321) and
`extractTrackingNumber` (lines 323-358).  The JavaScript regular expressions
are transliterated into a small regex AST (`RE`) and executed by a
backtracking engine (`reEnds`/`matchPatAt`/`searchPat`) with JavaScript
`String.match` semantics: leftmost match position wins; within a position,
greedy quantifiers and left-first alternation, with full backtracking; `\b`
is the JS word boundary over `[A-Za-z0-9_]`; patterns built with the `i`
flag compare characters after ASCII lowercasing, matching JS behaviour on
the ASCII patterns of this program.  Each pattern has exactly one capture
group, modelled by the `pre`/`body`/`post` split of `Pat` (the group is the
`body`).  Strings are modelled as `List Char`.
-/

/-- Character codes equality (JS `===` on one-code-unit strings). -/
@[simp] def chEq (a b : Char) : Bool := a.toNat == b.toNat

/-- JS `\d`: the ASCII digits `0x30`-`0x39`. -/
@[simp] def isDigitC (c : Char) : Bool := decide (48 ≤ c.toNat) && decide (c.toNat ≤ 57)

/-- JS `\w` (used by `\b`): `[A-Za-z0-9_]`. -/
@[simp] def isWordC (c : Char) : Bool :=
  (decide (65 ≤ c.toNat) && decide (c.toNat ≤ 90)) ||
  (decide (97 ≤ c.toNat) && decide (c.toNat ≤ 122)) ||
  isDigitC c || c.toNat == 95

/-- JS `\s`: space, `\t\n\v\f\r`, NBSP, ogham space, U+2000-U+200A,
line/paragraph separator, narrow NBSP, math space, ideographic space, BOM. -/
@[simp] def isSpaceJS (c : Char) : Bool :=
  c.toNat == 32 || (decide (9 ≤ c.toNat) && decide (c.toNat ≤ 13)) ||
  c.toNat == 160 || c.toNat == 5760 ||
  (decide (8192 ≤ c.toNat) && decide (c.toNat ≤ 8202)) ||
  c.toNat == 8232 || c.toNat == 8233 || c.toNat == 8239 || c.toNat == 8287 ||
  c.toNat == 12288 || c.toNat == 65279

/-- ASCII lowercasing of a single character (JS `i`-flag canonicalization and
`toLowerCase` restricted to ASCII, which is all this program compares). -/
@[simp] def lowerAscii (c : Char) : Char :=
  if decide (65 ≤ c.toNat) && decide (c.toNat ≤ 90) then Char.ofNat (c.toNat + 32) else c

/-- ASCII uppercasing of a single character (JS `toUpperCase` on ASCII). -/
@[simp] def upperAscii (c : Char) : Char :=
  if decide (97 ≤ c.toNat) && decide (c.toNat ≤ 122) then Char.ofNat (c.toNat - 32) else c

/-- Regex AST: exactly the constructs used by the program's patterns. -/
inductive RE where
  | eps : RE
  | cls (p : Char → Bool) : RE
  | cat (a b : RE) : RE
  | alt (a b : RE) : RE
  | opt (a : RE) : RE
  | starCls (p : Char → Bool) : RE
  | plus1 (a : RE) : RE
  | repCls (n : Nat) (p : Char → Bool) : RE
  | upToCls (n : Nat) (p : Char → Bool) : RE
  | bnd : RE
  | bos : RE

/-- Wordness of the optional character on either side of a position. -/
@[simp] def isWordO : Option Char → Bool
  | none => false
  | some c => isWordC c

/-- Greedy `p*`: all end states, longest consumption first. -/
@[simp] def starRun (p : Char → Bool) : Option Char → List Char → List (Option Char × List Char)
  | prev, [] => [(prev, [])]
  | prev, c :: rest =>
    if p c then starRun p (some c) rest ++ [(prev, c :: rest)]
    else [(prev, c :: rest)]

/-- `p{n}`: exactly `n` characters of class `p`. -/
@[simp] def repEnds (p : Char → Bool) : Nat → Option Char → List Char → List (Option Char × List Char)
  | 0, prev, rest => [(prev, rest)]
  | _ + 1, _, [] => []
  | n + 1, _, c :: rest => if p c then repEnds p n (some c) rest else []

/-- Greedy `p{0,n}`: up to `n` characters of class `p`, longest first. -/
@[simp] def upToEnds (p : Char → Bool) : Nat → Option Char → List Char → List (Option Char × List Char)
  | 0, prev, rest => [(prev, rest)]
  | _ + 1, prev, [] => [(prev, [])]
  | n + 1, prev, c :: rest =>
    if p c then upToEnds p n (some c) rest ++ [(prev, c :: rest)]
    else [(prev, c :: rest)]

/-- Greedy `a+` over a body-end enumerator `f`; recursion is fueled, and only
iterates when the body consumed at least one character (all `+` bodies in the
program's patterns do). "Continue repeating" states come before "stop here"
states, matching greedy backtracking priority. -/
@[simp] def plusEnds (f : Option Char × List Char → List (Option Char × List Char)) :
    Nat → Option Char → List Char → List (Option Char × List Char)
  | 0, _, _ => []
  | fuel + 1, prev, rest =>
    (f (prev, rest)).flatMap fun s =>
      (if s.2.length < rest.length then plusEnds f fuel s.1 s.2 else []) ++ [s]

/-- All end states of matching `r` at a position, in backtracking priority
order.  A state is (previous character, remaining input). -/
@[simp] def reEnds : RE → Option Char → List Char → List (Option Char × List Char)
  | .eps, prev, rest => [(prev, rest)]
  | .cls _, _, [] => []
  | .cls p, _, c :: rest => if p c then [(some c, rest)] else []
  | .cat a b, prev, rest => (reEnds a prev rest).flatMap fun s => reEnds b s.1 s.2
  | .alt a b, prev, rest => reEnds a prev rest ++ reEnds b prev rest
  | .opt a, prev, rest => reEnds a prev rest ++ [(prev, rest)]
  | .starCls p, prev, rest => starRun p prev rest
  | .plus1 a, prev, rest => plusEnds (fun s => reEnds a s.1 s.2) (rest.length + 1) prev rest
  | .repCls n p, prev, rest => repEnds p n prev rest
  | .upToCls n p, prev, rest => upToEnds p n prev rest
  | .bnd, prev, rest => if isWordO prev != isWordO rest.head? then [(prev, rest)] else []
  | .bos, prev, rest => if prev.isNone then [(prev, rest)] else []

/-- One source pattern: context before the capture group, the capture group
itself, and context after it. -/
structure Pat where
  pre : RE
  body : RE
  post : RE

/-- Try the pattern at one fixed position; on success return
(whole match `match[0]`, capture `match[1]`). -/
@[simp] def matchPatAt (pt : Pat) (prev : Option Char) (rest : List Char) :
    Option (List Char × List Char) :=
  (reEnds pt.pre prev rest).findSome? fun s1 =>
    (reEnds pt.body s1.1 s1.2).findSome? fun s2 =>
      match reEnds pt.post s2.1 s2.2 with
      | [] => none
      | s3 :: _ =>
        some (rest.take (rest.length - s3.2.length),
              s1.2.take (s1.2.length - s2.2.length))

/-- JS `text.match(pattern)` (no `g` flag): first position, left to right,
at which the pattern matches. -/
@[simp] def searchPat (pt : Pat) : Option Char → List Char → Option (List Char × List Char)
  | prev, [] => matchPatAt pt prev []
  | prev, c :: rest =>
    match matchPatAt pt prev (c :: rest) with
    | some r => some r
    | none => searchPat pt (some c) rest

/-! Pattern combinators used to transliterate the source regexes. -/

/-- `\d` -/
@[simp] def reD : RE := .cls isDigitC

/-- `\s*` -/
@[simp] def reS : RE := .starCls isSpaceJS

/-- A single literal character. -/
@[simp] def reChr (c : Char) : RE := .cls (fun x => chEq x c)

/-- A single literal character under the `i` flag. -/
@[simp] def ciCls (c : Char) : RE := .cls (fun x => chEq (lowerAscii x) (lowerAscii c))

/-- A literal string. -/
@[simp] def reStr : List Char → RE
  | [] => .eps
  | c :: cs => .cat (reChr c) (reStr cs)

/-- A literal string under the `i` flag. -/
@[simp] def reStrCI : List Char → RE
  | [] => .eps
  | c :: cs => .cat (ciCls c) (reStrCI cs)

/-- `[—–-]` (em dash, en dash, hyphen). -/
@[simp] def dashCls : RE := .cls (fun c => chEq c '—' || chEq c '–' || chEq c '-')

/-- `(?:-\d)?` -/
@[simp] def optSuffix : RE := .opt (.cat (reChr '-') reD)

/-- `(?:EJR|EJC|MH)` with the `i` flag (source line 206). -/
@[simp] def longPrefRE : RE :=
  .alt (reStrCI ['E','J','R']) (.alt (reStrCI ['E','J','C']) (reStrCI ['M','H']))

/-- `(?:R|AL)` with the `i` flag (source line 207). -/
@[simp] def shortPrefRE : RE := .alt (reStrCI ['R']) (reStrCI ['A','L'])

/-- Source line 211: `/\b(\d{9}(?:\s*[—–-]\s*\d)+)\b/` -/
@[simp] def p0 : Pat :=
  ⟨.bnd, .cat (.repCls 9 isDigitC) (.plus1 (.cat reS (.cat dashCls (.cat reS reD)))), .bnd⟩

/-- Source line 214: `/\b(2\d{9}(?:-\d)?)\b/` -/
@[simp] def p1 : Pat := ⟨.bnd, .cat (reChr '2') (.cat (.repCls 9 isDigitC) optSuffix), .bnd⟩

/-- Source line 217: `/\b(EL\d{6}EL(?:-\d)?)\b/i` -/
@[simp] def p2 : Pat :=
  ⟨.bnd, .cat (reStrCI ['E','L'])
      (.cat (.repCls 6 isDigitC) (.cat (reStrCI ['E','L']) optSuffix)), .bnd⟩

/-- Source line 220: `\b((?:R|AL)\d{4}(?:-\d)?)\b` with flag `i`. -/
@[simp] def p3 : Pat := ⟨.bnd, .cat shortPrefRE (.cat (.repCls 4 isDigitC) optSuffix), .bnd⟩

/-- Source line 223: `\b((?:EJR|EJC|MH)\d{6}(?:-\d)?)\b` with flag `i`. -/
@[simp] def p4 : Pat := ⟨.bnd, .cat longPrefRE (.cat (.repCls 6 isDigitC) optSuffix), .bnd⟩

/-- Source line 226: `/\b(\d{9}\s*-\s*\d)\b/` -/
@[simp] def p5 : Pat :=
  ⟨.bnd, .cat (.repCls 9 isDigitC) (.cat reS (.cat (reChr '-') (.cat reS reD))), .bnd⟩

/-- Source line 227: `/\b(\d{9}(?:-\d)?)\b/` -/
@[simp] def p6 : Pat := ⟨.bnd, .cat (.repCls 9 isDigitC) optSuffix, .bnd⟩

/-- Source line 230: `/\b(\d{6}\s*-\s*\d)\b/` -/
@[simp] def p7 : Pat :=
  ⟨.bnd, .cat (.repCls 6 isDigitC) (.cat reS (.cat (reChr '-') (.cat reS reD))), .bnd⟩

/-- Source line 231: `/\b(\d{6}-\d)\b/` -/
@[simp] def p8 : Pat := ⟨.bnd, .cat (.repCls 6 isDigitC) (.cat (reChr '-') reD), .bnd⟩

/-- `(?:^|\s|#)`, the context of source lines 234-236. -/
@[simp] def standalonePre : RE := .alt .bos (.alt (.cls isSpaceJS) (reChr '#'))

/-- Source line 234: `/(?:^|\s|#)(EL\d{6}EL(?:-\d)?)/i` -/
@[simp] def p9 : Pat := ⟨standalonePre, p2.body, .eps⟩

/-- Source line 235: `(?:^|\s|#)((?:R|AL)\d{4}(?:-\d)?)` with flag `i`. -/
@[simp] def p10 : Pat := ⟨standalonePre, p3.body, .eps⟩

/-- Source line 236: `(?:^|\s|#)((?:EJR|EJC|MH)\d{6}(?:-\d)?)` with flag `i`. -/
@[simp] def p11 : Pat := ⟨standalonePre, p4.body, .eps⟩

/-- `[:"']` (colon, double quote, apostrophe). -/
@[simp] def quoteCls : RE :=
  .cls (fun c => chEq c ':' || chEq c (Char.ofNat 34) || chEq c (Char.ofNat 39))

/-- `(?:Order\s*#?\s*|Order\s*Number\s*[:"']?\s*)`, the label context of
source lines 239-241, with flag `i`. -/
@[simp] def labelPre : RE :=
  .alt (.cat (reStrCI ['O','r','d','e','r']) (.cat reS (.cat (.opt (reChr '#')) reS)))
       (.cat (reStrCI ['O','r','d','e','r'])
         (.cat reS (.cat (reStrCI ['N','u','m','b','e','r'])
           (.cat reS (.cat (.opt quoteCls) reS)))))

/-- `\s*-?\s*\d?`, the loose tail of the labelled patterns. -/
@[simp] def tailLoose : RE := .cat reS (.cat (.opt (reChr '-')) (.cat reS (.opt reD)))

/-- Source line 239: label then `((?:EJR|EJC|MH)?\d{6,9}\s*-?\s*\d?)`, flag `i`. -/
@[simp] def p12 : Pat :=
  ⟨labelPre, .cat (.opt longPrefRE)
      (.cat (.repCls 6 isDigitC) (.cat (.upToCls 3 isDigitC) tailLoose)), .eps⟩

/-- Source line 240: label then `((?:R|AL)?\d{4}\s*-?\s*\d?)`, flag `i`. -/
@[simp] def p13 : Pat := ⟨labelPre, .cat (.opt shortPrefRE) (.cat (.repCls 4 isDigitC) tailLoose), .eps⟩

/-- Source line 241: label then `(EL\d{6}EL\s*-?\s*\d?)`, flag `i`. -/
@[simp] def p14 : Pat :=
  ⟨labelPre, .cat (reStrCI ['E','L'])
      (.cat (.repCls 6 isDigitC) (.cat (reStrCI ['E','L']) tailLoose)), .eps⟩

/-- `#\s*`, the context of source lines 244-245. -/
@[simp] def hashPre : RE := .cat (reChr '#') reS

/-- Source line 244: `#\s*((?:(?:EJR|EJC|MH)|(?:R|AL))?\d{4,9}\s*-?\s*\d?)`, flag `i`. -/
@[simp] def p15 : Pat :=
  ⟨hashPre, .cat (.opt (.alt longPrefRE shortPrefRE))
      (.cat (.repCls 4 isDigitC) (.cat (.upToCls 5 isDigitC) tailLoose)), .eps⟩

/-- Source line 245: `/#\s*(EL\d{6}EL\s*-?\s*\d?)/i` -/
@[simp] def p16 : Pat :=
  ⟨hashPre, .cat (reStrCI ['E','L'])
      (.cat (.repCls 6 isDigitC) (.cat (reStrCI ['E','L']) tailLoose)), .eps⟩

/-- The ordered cascade of source lines 209-246. -/
def orderPatterns : List Pat :=
  [p0, p1, p2, p3, p4, p5, p6, p7, p8, p9, p10, p11, p12, p13, p14, p15, p16]

/-! Cleanup, case normalization and validation (source lines 196-321). -/

/-- Source lines 200 and 263: em dash and en dash become an ASCII hyphen,
every other character is unchanged. -/
@[simp] def dashFix (c : Char) : Char := if chEq c '—' || chEq c '–' then '-' else c

/-- Source line 200: `text.replace(/[—–]/g, '-')`. -/
@[simp] def normalizeDashes (l : List Char) : List Char := l.map dashFix

/-- Source lines 258-263: trim, drop all `\s` characters, re-normalize any
residual dashes (dropping every `\s` character subsumes the trim). -/
@[simp] def cleanNumber (l : List Char) : List Char :=
  (l.filter fun c => !(isSpaceJS c)).map dashFix

/-- Does `l` start with `p` (character-code comparison)? -/
@[simp] def listStarts : List Char → List Char → Bool
  | [], _ => true
  | _ :: _, [] => false
  | p :: ps, c :: cs => chEq c p && listStarts ps cs

/-- Does `l` contain `needle` as a contiguous substring (JS `includes`)? -/
@[simp] def listHas (needle : List Char) : List Char → Bool
  | [] => needle.isEmpty
  | c :: cs => listStarts needle (c :: cs) || listHas needle cs

/-- Source line 268: `replace(/el/gi, 'EL')` - left-to-right, non-overlapping. -/
@[simp] def replaceELall : List Char → List Char
  | [] => []
  | [c] => [c]
  | a :: b :: rest =>
    if chEq (lowerAscii a) 'e' && chEq (lowerAscii b) 'l' then
      'E' :: 'L' :: replaceELall rest
    else a :: replaceELall (b :: rest)

/-- Source lines 272-277: rewrite the first matching known whole-word head to
its canonical casing, first match only. -/
@[simp] def applyPrefixCase : List (List Char) → List Char → List Char
  | [], l => l
  | pre :: rest, l =>
    if listStarts pre (l.map upperAscii) then pre ++ l.drop pre.length
    else applyPrefixCase rest l

/-- Source lines 266-278: EL-wrapped candidates get every `el` occurrence
uppercased; otherwise the known heads `EJR, EJC, MH, R, AL` are re-cased. -/
@[simp] def normalizeOrderCase (l : List Char) : List Char :=
  if listStarts ['E','L'] (l.map upperAscii) && listHas ['E','L','-'] (l.map upperAscii) then
    replaceELall l
  else
    applyPrefixCase [['E','J','R'], ['E','J','C'], ['M','H'], ['R'], ['A','L']] l

/-- Strip exactly `n` leading digits, returning the remainder. -/
@[simp] def stripDigits : Nat → List Char → Option (List Char)
  | 0, l => some l
  | _ + 1, [] => none
  | n + 1, c :: rest => if isDigitC c then stripDigits n rest else none

/-- Strip a case-insensitive literal head, returning the remainder. -/
@[simp] def stripCI : List Char → List Char → Option (List Char)
  | [], l => some l
  | _ :: _, [] => none
  | p :: ps, c :: cs =>
    if chEq (lowerAscii c) (lowerAscii p) then stripCI ps cs else none

/-- `(?:-\d)*` anchored to the end: a sequence of `-digit` groups. -/
@[simp] def dashDigitChain : List Char → Bool
  | [] => true
  | c :: d :: rest => chEq c '-' && isDigitC d && dashDigitChain rest
  | _ => false

/-- `(?:-\d)+$`: at least one `-digit` group, then end. -/
@[simp] def dashDigitPlus (l : List Char) : Bool := !l.isEmpty && dashDigitChain l

/-- `\d{n}(?:-\d)+$` -/
@[simp] def validTail (n : Nat) (l : List Char) : Bool :=
  match stripDigits n l with
  | some r => dashDigitPlus r
  | none => false

/-- `^<head>\d{n}(?:-\d)+$` with flag `i`. -/
@[simp] def validHead (pre : List Char) (n : Nat) (l : List Char) : Bool :=
  match stripCI pre l with
  | some t => validTail n t
  | none => false

/-- `^2\d{9}(?:-\d)+$` (source line 283). -/
@[simp] def validLead2 (l : List Char) : Bool :=
  match l with
  | c :: t => chEq c '2' && validTail 9 t
  | [] => false

/-- `^EL\d{6}EL(?:-\d)+$/i` (source line 285). -/
@[simp] def validEL (l : List Char) : Bool :=
  match stripCI ['E','L'] l with
  | some t =>
    match stripDigits 6 t with
    | some t2 =>
      match stripCI ['E','L'] t2 with
      | some t3 => dashDigitPlus t3
      | none => false
    | none => false
  | none => false

/-- Source lines 281-298: the full validator, in source order. -/
@[simp] def isValidFormat (l : List Char) : Bool :=
  validLead2 l || validEL l ||
  validHead ['R'] 4 l || validHead ['A','L'] 4 l ||
  validHead ['E','J','R'] 6 l || validHead ['E','J','C'] 6 l || validHead ['M','H'] 6 l ||
  validTail 9 l || validTail 6 l

/-- One iteration of the source loop (lines 251-308) for a single pattern:
match, take `match[1] || match[0]`, clean, re-case, validate; `some` only on a
validated candidate, `none` means "try the next pattern". -/
@[simp] def tryOrderPattern (norm : List Char) (pt : Pat) : Option (List Char) :=
  match searchPat pt none norm with
  | none => none
  | some (whole, cap) =>
    let f0 := if cap.isEmpty then whole else cap
    let f1 := normalizeOrderCase (cleanNumber f0)
    if isValidFormat f1 then some f1 else none

/-- `extractOrderNumber` on the character list level. -/
def extractOrderNumberCore (l : List Char) : Option (List Char) :=
  orderPatterns.findSome? (tryOrderPattern (normalizeDashes l))

/-- Source lines 196-321: `extractOrderNumber`. -/
def extractOrderNumber (text : String) : Option String :=
  (extractOrderNumberCore text.data).map String.mk

/-- Outcome of order-number extraction with the failure diagnostics the
source emits on lines 311-318 (the normalized text and every pattern tried). -/
inductive OrderOutcome where
  | found : List Char → OrderOutcome
  | notFound : List Char → List Pat → OrderOutcome

/-- `extractOrderNumber` together with its failure diagnostics: on failure the
source logs the normalized text (line 313) and the whole pattern list
(lines 316-318) and returns `null` (line 320). -/
def extractOrderOutcome (text : String) : OrderOutcome :=
  match extractOrderNumberCore text.data with
  | some r => .found r
  | none => .notFound (normalizeDashes text.data) orderPatterns

/-! Tracking-number extraction (source lines 323-358). -/

/-- Source line 332: `/\b(9205\s*\d{4}\s*\d{4}\s*\d{4}\s*\d{4}\s*\d{2})\b/` -/
def trackingPat : Pat :=
  ⟨.bnd, .cat (reStr ['9','2','0','5'])
      (.cat reS (.cat (.repCls 4 isDigitC)
        (.cat reS (.cat (.repCls 4 isDigitC)
          (.cat reS (.cat (.repCls 4 isDigitC)
            (.cat reS (.cat (.repCls 4 isDigitC)
              (.cat reS (.repCls 2 isDigitC)))))))))), .bnd⟩

/-- The source's tracking pattern list (line 327) has this one live entry. -/
def trackingPatterns : List Pat := [trackingPat]

/-- Source line 341: `.replace(/\s+/g, '')`. -/
def stripSpacesAll (l : List Char) : List Char := l.filter fun c => !(isSpaceJS c)

/-- The text-search tier of `extractTrackingNumber` (source lines 337-345). -/
def textTracking (pdfText : String) : Option String :=
  trackingPatterns.findSome? fun pt =>
    match searchPat pt none pdfText.data with
    | some (whole, cap) =>
      some (String.mk (stripSpacesAll (if cap.isEmpty then whole else cap)))
    | none => none

/-- Node `path.basename(fileName, '.pdf')`: last path component, with a
trailing `.pdf` removed unless the component is exactly `.pdf`. -/
def basenameNoExt (l : List Char) : List Char :=
  let base := (l.reverse.takeWhile fun c => !(chEq c '/')).reverse
  if listStarts ['f','d','p','.'] base.reverse && decide (4 < base.length) then
    base.take (base.length - 4)
  else base

/-- Source line 350: `/^\d{20,22}$/`. -/
def fnameGuard (l : List Char) : Bool :=
  decide (20 ≤ l.length) && decide (l.length ≤ 22) && l.all isDigitC

/-- Source lines 323-358: `extractTrackingNumber`. -/
def extractTrackingNumber (fileName pdfText : String) : Option String :=
  match textTracking pdfText with
  | some r => some r
  | none =>
    let tn := basenameNoExt fileName.data
    if fnameGuard tn then some (String.mk tn) else none

example : extractOrderNumber "R3817-1" = some "R3817-1" := by decide
example : extractTrackingNumber "label.pdf" "" = none := by decide

/-! Evaluation lemmas: how the character classes behave on a character known
only to be a digit (`48 ≤ toNat ≤ 57`), stated at the level of the arithmetic
atoms that `simp` produces when unfolding the class definitions. -/

/-- Lower bounds below 48 hold for a digit. -/
theorem ge_toNat_trueP {c : Char} {k : Nat} (h : 48 ≤ c.toNat) (hk : k ≤ 48) :
    (k ≤ c.toNat) ↔ True := iff_true_intro (by omega)

/-- Lower bounds above 57 fail for a digit. -/
theorem ge_toNat_falseP {c : Char} {k : Nat} (h : c.toNat ≤ 57) (hk : 57 < k) :
    (k ≤ c.toNat) ↔ False := iff_false_intro (by omega)

/-- Upper bounds of at least 57 hold for a digit. -/
theorem le_toNat_trueP {c : Char} {k : Nat} (h : c.toNat ≤ 57) (hk : 57 ≤ k) :
    (c.toNat ≤ k) ↔ True := iff_true_intro (by omega)

/-- Upper bounds below 48 fail for a digit. -/
theorem le_toNat_falseP {c : Char} {k : Nat} (h : 48 ≤ c.toNat) (hk : k < 48) :
    (c.toNat ≤ k) ↔ False := iff_false_intro (by omega)

/-- A digit's code is not a code outside `48..57`. -/
theorem eq_toNat_falseP {c : Char} {k : Nat} (h1 : 48 ≤ c.toNat) (h2 : c.toNat ≤ 57)
    (hk : k < 48 ∨ 57 < k) : (c.toNat = k) ↔ False := iff_false_intro (by omega)

/-- A code outside `48..57` is not a digit's code. -/
theorem eq_toNat_falsePr {c : Char} {k : Nat} (h1 : 48 ≤ c.toNat) (h2 : c.toNat ≤ 57)
    (hk : k < 48 ∨ 57 < k) : (k = c.toNat) ↔ False := iff_false_intro (by omega)

/-- Distribute `flatMap` over an undecided conditional list. -/
@[simp] theorem distribFlatMap {c : Prop} [Decidable c] {α β : Type} (l1 l2 : List α)
    (g : α → List β) :
    (if c then l1 else l2).flatMap g = if c then l1.flatMap g else l2.flatMap g := by
  split <;> rfl

/-- Distribute `findSome?` over an undecided conditional list. -/
@[simp] theorem distribFindSome {c : Prop} [Decidable c] {α β : Type} (l1 l2 : List α)
    (g : α → Option β) :
    List.findSome? g (if c then l1 else l2)
      = if c then List.findSome? g l1 else List.findSome? g l2 := by
  split <;> rfl

/-- Distribute appending on the right over an undecided conditional list. -/
@[simp] theorem distribAppend {c : Prop} [Decidable c] {α : Type} (l1 l2 l3 : List α) :
    (if c then l1 else l2) ++ l3 = if c then l1 ++ l3 else l2 ++ l3 := by
  split <;> rfl

/-! Structural helper lemmas. -/

/-- Characters with equal codes are equal. -/
theorem chEq_eq {a b : Char} (h : chEq a b = true) : a = b := by
  simp only [chEq, beq_iff_eq] at h
  exact Char.ofNat_toNat a ▸ Char.ofNat_toNat b ▸ congrArg Char.ofNat h

/-- Stepping the cascade past a pattern that produced no validated match. -/
theorem cascadeStep {nrm : List Char} {pt : Pat} {pts : List Pat}
    (h : tryOrderPattern nrm pt = none) :
    (pt :: pts).findSome? (tryOrderPattern nrm) = pts.findSome? (tryOrderPattern nrm) := by
  simp only [List.findSome?_cons, h]

/-- Stopping the cascade at the first pattern with a validated match. -/
theorem cascadeHit {nrm : List Char} {pt : Pat} {pts : List Pat} {r : List Char}
    (h : tryOrderPattern nrm pt = some r) :
    (pt :: pts).findSome? (tryOrderPattern nrm) = some r := by
  simp only [List.findSome?_cons, h]

/-- A successful `findSome?` comes from some member of the list. -/
theorem findSome_mem {α β : Type} {f : α → Option β} :
    ∀ {l : List α} {b : β}, l.findSome? f = some b → ∃ a, a ∈ l ∧ f a = some b := by
  intro l
  induction l with
  | nil => intro b h; rw [List.findSome?_nil] at h; cases h
  | cons x xs ih =>
    intro b h
    rw [List.findSome?_cons] at h
    cases hx : f x with
    | some v => rw [hx] at h; exact ⟨x, List.mem_cons_self x xs, hx.trans h⟩
    | none => rw [hx] at h; obtain ⟨a, hm, ha⟩ := ih h; exact ⟨a, List.mem_cons_of_mem x hm, ha⟩

/-- A pattern iteration only succeeds on a candidate that passed the
validator (source lines 300-306). -/
theorem tryOrderPattern_valid {nrm : List Char} {pt : Pat} {r : List Char}
    (h : tryOrderPattern nrm pt = some r) : isValidFormat r = true := by
  unfold tryOrderPattern at h
  cases hs : searchPat pt none nrm with
  | none => rw [hs] at h; cases h
  | some wc =>
    rw [hs] at h
    obtain ⟨w, c⟩ := wc
    simp only at h
    by_cases hv :
        isValidFormat (normalizeOrderCase (cleanNumber (if c.isEmpty then w else c))) = true
    · rw [if_pos hv] at h
      cases h
      exact hv
    · rw [if_neg hv] at h; cases h

/-- Stripping digits strips a prefix. -/
theorem stripDigits_append : ∀ {n : Nat} {l r : List Char},
    stripDigits n l = some r → ∃ p, l = p ++ r := by
  intro n
  induction n with
  | zero => intro l r h; rw [stripDigits] at h; cases h; exact ⟨[], rfl⟩
  | succ n ih =>
    intro l r h
    cases l with
    | nil => rw [stripDigits] at h; cases h
    | cons c rest =>
      rw [stripDigits] at h
      by_cases hc : isDigitC c = true
      · rw [if_pos hc] at h
        obtain ⟨p, hp⟩ := ih h
        exact ⟨c :: p, by rw [hp]; rfl⟩
      · rw [if_neg hc] at h; cases h

/-- Stripping a literal head strips a prefix. -/
theorem stripCI_append : ∀ {pre l r : List Char},
    stripCI pre l = some r → ∃ p, l = p ++ r := by
  intro pre
  induction pre with
  | nil => intro l r h; rw [stripCI] at h; cases h; exact ⟨[], rfl⟩
  | cons q qs ih =>
    intro l r h
    cases l with
    | nil => rw [stripCI] at h; cases h
    | cons c rest =>
      rw [stripCI] at h
      by_cases hc : chEq (lowerAscii c) (lowerAscii q) = true
      · rw [if_pos hc] at h
        obtain ⟨p, hp⟩ := ih h
        exact ⟨c :: p, by rw [hp]; rfl⟩
      · rw [if_neg hc] at h; cases h

/-- A nonempty `-digit` chain ends in `-digit`. -/
theorem dashDigitChain_suffix : ∀ (n : Nat) (l : List Char), l.length ≤ n → l ≠ [] →
    dashDigitChain l = true → ∃ t d, l = t ++ ['-', d] ∧ isDigitC d = true := by
  intro n
  induction n with
  | zero =>
    intro l hl hne _
    cases l with
    | nil => exact absurd rfl hne
    | cons c rest => simp at hl
  | succ n ih =>
    intro l hl hne h
    match l, hne with
    | [c], _ => simp [dashDigitChain] at h
    | c :: d :: rest, _ =>
      rw [dashDigitChain] at h
      simp only [Bool.and_eq_true] at h
      obtain ⟨⟨hdash, hdig⟩, hrest⟩ := h
      cases rest with
      | nil => exact ⟨[], d, by simp [chEq_eq hdash], hdig⟩
      | cons x xs =>
        have hlen : (x :: xs).length ≤ n := by
          simp only [List.length_cons] at hl ⊢; omega
        obtain ⟨t, e, ht, he⟩ := ih (x :: xs) hlen (by simp) hrest
        refine ⟨c :: d :: t, e, ?_, he⟩
        rw [chEq_eq hdash] at *
        simp [ht]

/-- At least one `-digit` group means the string ends in `-digit`. -/
theorem dashDigitPlus_suffix {l : List Char} (h : dashDigitPlus l = true) :
    ∃ t d, l = t ++ ['-', d] ∧ isDigitC d = true := by
  simp only [dashDigitPlus, Bool.and_eq_true] at h
  obtain ⟨hne, hch⟩ := h
  refine dashDigitChain_suffix l.length l le_rfl ?_ hch
  cases l with
  | nil => cases hne
  | cons c rest => simp

/-- `validTail` forces a trailing `-digit`. -/
theorem validTail_suffix {n : Nat} {l : List Char} (h : validTail n l = true) :
    ∃ t d, l = t ++ ['-', d] ∧ isDigitC d = true := by
  unfold validTail at h
  cases hs : stripDigits n l with
  | none => simp only [hs] at h; exact Bool.noConfusion h
  | some r =>
    simp only [hs] at h
    obtain ⟨p, hp⟩ := stripDigits_append hs
    obtain ⟨t, d, ht, hd⟩ := dashDigitPlus_suffix h
    exact ⟨p ++ t, d, by rw [hp, ht, List.append_assoc], hd⟩

/-- `validHead` forces a trailing `-digit`. -/
theorem validHead_suffix {pre : List Char} {n : Nat} {l : List Char}
    (h : validHead pre n l = true) :
    ∃ t d, l = t ++ ['-', d] ∧ isDigitC d = true := by
  unfold validHead at h
  cases hs : stripCI pre l with
  | none => simp only [hs] at h; exact Bool.noConfusion h
  | some r =>
    simp only [hs] at h
    obtain ⟨p, hp⟩ := stripCI_append hs
    obtain ⟨t, d, ht, hd⟩ := validTail_suffix h
    exact ⟨p ++ t, d, by rw [hp, ht, List.append_assoc], hd⟩

/-- `validLead2` forces a trailing `-digit`. -/
theorem validLead2_suffix {l : List Char} (h : validLead2 l = true) :
    ∃ t d, l = t ++ ['-', d] ∧ isDigitC d = true := by
  cases l with
  | nil => rw [validLead2] at h; cases h
  | cons c rest =>
    rw [validLead2] at h
    simp only [Bool.and_eq_true] at h
    obtain ⟨t, d, ht, hd⟩ := validTail_suffix h.2
    exact ⟨c :: t, d, by rw [ht]; rfl, hd⟩

/-- `validEL` forces a trailing `-digit`. -/
theorem validEL_suffix {l : List Char} (h : validEL l = true) :
    ∃ t d, l = t ++ ['-', d] ∧ isDigitC d = true := by
  unfold validEL at h
  cases h1 : stripCI ['E','L'] l with
  | none => simp only [h1] at h; exact Bool.noConfusion h
  | some t1 =>
    simp only [h1] at h
    cases h2 : stripDigits 6 t1 with
    | none => simp only [h2] at h; exact Bool.noConfusion h
    | some t2 =>
      simp only [h2] at h
      cases h3 : stripCI ['E','L'] t2 with
      | none => simp only [h3] at h; exact Bool.noConfusion h
      | some t3 =>
        simp only [h3] at h
        obtain ⟨p1, hp1⟩ := stripCI_append h1
        obtain ⟨p2, hp2⟩ := stripDigits_append h2
        obtain ⟨p3, hp3⟩ := stripCI_append h3
        obtain ⟨t, d, ht, hd⟩ := dashDigitPlus_suffix h
        refine ⟨p1 ++ p2 ++ p3 ++ t, d, ?_, hd⟩
        rw [hp1, hp2, hp3, ht]
        simp [List.append_assoc]

/-- Every disjunct of the validator forces a trailing `-digit` group. -/
theorem isValidFormat_suffix {l : List Char} (h : isValidFormat l = true) :
    ∃ t d, l = t ++ ['-', d] ∧ isDigitC d = true := by
  simp only [isValidFormat, Bool.or_eq_true] at h
  rcases h with ((((((((h | h) | h) | h) | h) | h) | h) | h) | h)
  · exact validLead2_suffix h
  · exact validEL_suffix h
  · exact validHead_suffix h
  · exact validHead_suffix h
  · exact validHead_suffix h
  · exact validHead_suffix h
  · exact validHead_suffix h
  · exact validTail_suffix h
  · exact validTail_suffix h

/-- Claim C1: for every input text, any string returned as a successful order
number by `extractOrderNumber` has passed the family-format validator
`isValidFormat`; every validator family requires at least one `-digit` suffix
segment, so the returned string ends in `-digit`; in particular it is never a
bare digit sequence (such as `123456789`), even when a cascade pattern
matched one. -/
theorem C1_validated_suffix (text r : String) (h : extractOrderNumber text = some r) :
    isValidFormat r.data = true ∧
    (∃ t d, r.data = t ++ ['-', d] ∧ isDigitC d = true) ∧
    r.data.all isDigitC = false := by
  unfold extractOrderNumber at h
  cases hc : extractOrderNumberCore text.data with
  | none => rw [hc] at h; cases h
  | some l =>
    rw [hc] at h
    simp only [Option.map_some'] at h
    cases h
    obtain ⟨pt, hmem, hpt⟩ := findSome_mem hc
    have hv : isValidFormat l = true := tryOrderPattern_valid hpt
    obtain ⟨t, d, ht, hd⟩ := isValidFormat_suffix hv
    refine ⟨hv, ⟨t, d, ht, hd⟩, ?_⟩
    show l.all isDigitC = false
    rw [ht]
    simp [List.all_append]

/-- Witness for C1 at the concrete extraction `R3817-1`. -/
theorem C1_witness :
    isValidFormat ("R3817-1".data) = true ∧
    (∃ t d, ("R3817-1" : String).data = t ++ ['-', d] ∧ isDigitC d = true) ∧
    ("R3817-1" : String).data.all isDigitC = false :=
  C1_validated_suffix "R3817-1" "R3817-1" (by decide)

/-- Claim C2 (amended): the cascade applies `orderPatterns` in its fixed
order and the first pattern that produces a validated match wins, even if a
later pattern would also produce one; the order, however, runs from the
multi-segment numeric form and the prefixed families through the bare digit
runs to the `Order`/`#` contextual patterns last. -/
theorem C2_first_validated_wins (text : String) (l1 l2 : List Pat) (pt : Pat) (r : List Char)
    (hsplit : orderPatterns = l1 ++ pt :: l2)
    (hbefore : ∀ q ∈ l1, tryOrderPattern (normalizeDashes text.data) q = none)
    (hwin : tryOrderPattern (normalizeDashes text.data) pt = some r) :
    extractOrderNumber text = some (String.mk r) := by
  unfold extractOrderNumber extractOrderNumberCore
  rw [hsplit]
  have hstep : ∀ (l : List Pat), (∀ q ∈ l, tryOrderPattern (normalizeDashes text.data) q = none) →
      (l ++ pt :: l2).findSome? (tryOrderPattern (normalizeDashes text.data)) = some r := by
    intro l
    induction l with
    | nil => intro _; exact cascadeHit hwin
    | cons x xs ih =>
      intro hb
      rw [List.cons_append, cascadeStep (hb x (List.mem_cons_self x xs))]
      exact ih (fun q hq => hb q (List.mem_cons_of_mem x hq))
  rw [hstep l1 hbefore]
  rfl

/-- Counterexample to C2 as stated: in `Order123456-1 654321-9` the
`Order`-labelled pattern `p12` produces the validated candidate `123456-1`,
yet the extractor returns `654321-9`, matched by the generic bare-6-digit-run
pattern - so the contextual `Order`/`#` patterns are tried after the bare
digit runs, not before them. -/
theorem C2_counterexample :
    extractOrderNumber "Order123456-1 654321-9" = some "654321-9" ∧
    tryOrderPattern (normalizeDashes ("Order123456-1 654321-9".data)) p12
      = some ("123456-1".data) ∧
    isValidFormat ("123456-1".data) = true := by decide

/-- Witness for C2: on `R3817-1` the patterns before `p3` all fail and `p3`
produces the validated match, which is the overall result. -/
theorem C2_witness : extractOrderNumber "R3817-1" = some "R3817-1" :=
  C2_first_validated_wins "R3817-1" [p0, p1, p2]
    [p4, p5, p6, p7, p8, p9, p10, p11, p12, p13, p14, p15, p16] p3 ("R3817-1".data)
    rfl (by decide) (by decide)

/-- Claim C7: for EL-wrapped candidates the case normalization uppercases
every occurrence of the literal `el` substring; on input text `el649453el-1`
the extractor returns `EL649453EL-1`. -/
theorem C7_el_case :
    extractOrderNumber "el649453el-1" = some "EL649453EL-1" ∧
    replaceELall ("el649453el-1".data) = ("EL649453EL-1".data) := by decide

/-- Claim C10: each pattern only ever considers the leftmost match in the
text.  In `2000000289 2111111111-1` the pattern `p1` (`2` + 9 digits) finds
the leftmost candidate `2000000289`, which fails validation, and the pattern
is abandoned even though the same pattern would match the valid canonical
order number `2111111111-1` later in the text; the whole extraction returns
`none`. -/
theorem C10_leftmost_abandoned :
    extractOrderNumber "2000000289 2111111111-1" = none ∧
    isValidFormat ("2111111111-1".data) = true ∧
    searchPat p1 none (normalizeDashes ("2000000289 2111111111-1".data))
      = some ("2000000289".data, "2000000289".data) ∧
    isValidFormat (normalizeOrderCase (cleanNumber ("2000000289".data))) = false ∧
    searchPat p1 (some ' ') ("2111111111-1".data)
      = some ("2111111111-1".data, "2111111111-1".data) := by decide

/-- Claim C3 (amended): the tracking recognizer searches the text for the
literal digit group `9205` followed by four groups of four digits and a final
group of two digits - 22 digits in total - separated by optional whitespace
(`trackingPat`); any text match is returned immediately with all whitespace
stripped, taking precedence over any filename-derived candidate. -/
theorem C3_text_precedence (fileName pdfText : String) (r : String)
    (h : textTracking pdfText = some r) :
    extractTrackingNumber fileName pdfText = some r := by
  simp only [extractTrackingNumber, h]

/-- Counterexample to C3 as stated: text that is `9205` followed by four
groups of four digits (20 digits in total, as the claim describes) is not
matched at all - the source pattern requires a further two-digit group - so
the recognizer finds nothing in it. -/
theorem C3_counterexample :
    extractTrackingNumber "x.pdf" "9205 1234 5678 9012 3456" = none ∧
    textTracking "9205 1234 5678 9012 3456" = none := by decide

/-- Witness for C3: the 22-digit example, with a filename that would itself
be an acceptable fallback and is overridden by the text match. -/
theorem C3_witness :
    extractTrackingNumber "11111111111111111111.pdf" "9205 1234 5678 9012 3456 78"
      = some "9205123456789012345678" :=
  C3_text_precedence "11111111111111111111.pdf" "9205 1234 5678 9012 3456 78"
    "9205123456789012345678" (by decide)

/-- Claim C6: when no tracking pattern occurs in the text, the recognizer
falls back to the file name stripped of its `.pdf` extension and accepts it
exactly when it is 20 to 22 digits; `12345678901234567890.pdf` yields
`12345678901234567890`, while `label.pdf` yields nothing. -/
theorem C6_filename_fallback (fileName pdfText : String)
    (h : textTracking pdfText = none) :
    (extractTrackingNumber fileName pdfText =
      if fnameGuard (basenameNoExt fileName.data) = true
      then some (String.mk (basenameNoExt fileName.data)) else none) ∧
    (fnameGuard (basenameNoExt fileName.data) = true ↔
      20 ≤ (basenameNoExt fileName.data).length ∧
      (basenameNoExt fileName.data).length ≤ 22 ∧
      (basenameNoExt fileName.data).all isDigitC = true) ∧
    extractTrackingNumber "12345678901234567890.pdf" "" = some "12345678901234567890" ∧
    extractTrackingNumber "label.pdf" "" = none := by
  refine ⟨?_, ?_, by decide, by decide⟩
  · simp only [extractTrackingNumber, h]
  · simp only [fnameGuard, Bool.and_eq_true, decide_eq_true_eq]
    tauto

/-- Witness for C6 at the two concrete files with empty text. -/
theorem C6_witness :
    extractTrackingNumber "12345678901234567890.pdf" "" = some "12345678901234567890" ∧
    extractTrackingNumber "label.pdf" "" = none :=
  ⟨(C6_filename_fallback "12345678901234567890.pdf" "" (by decide)).2.2.1,
   (C6_filename_fallback "label.pdf" "" (by decide)).2.2.2⟩

/-- `dashFix` is idempotent on every character. -/
theorem dashFix_idem (c : Char) : dashFix (dashFix c) = dashFix c := by
  by_cases h : (chEq c '—' || chEq c '–') = true
  · have hc : dashFix c = '-' := by rw [dashFix, if_pos h]
    simp only [hc]
    decide
  · have hc : dashFix c = c := by rw [dashFix, if_neg h]
    simp only [hc]

/-- Claim C8: text normalization maps the em dash and the en dash to an
ASCII hyphen, passes every other character through unchanged, is total, and
is idempotent. -/
theorem C8_normalizer :
    (dashFix '—' = '-' ∧ dashFix '–' = '-') ∧
    (∀ c : Char, c ≠ '—' → c ≠ '–' → dashFix c = c) ∧
    (∀ l : List Char, normalizeDashes (normalizeDashes l) = normalizeDashes l) := by
  refine ⟨by decide, ?_, ?_⟩
  · intro c h1 h2
    have e1 : chEq c '—' = false := by
      cases hb : chEq c '—'
      · rfl
      · exact absurd (chEq_eq hb) h1
    have e2 : chEq c '–' = false := by
      cases hb : chEq c '–'
      · rfl
      · exact absurd (chEq_eq hb) h2
    rw [dashFix, if_neg (by rw [e1, e2]; simp)]
  · intro l
    induction l with
    | nil => rfl
    | cons c cs ih =>
      show ((c :: cs).map dashFix).map dashFix = (c :: cs).map dashFix
      simp only [List.map_cons, dashFix_idem, List.cons.injEq]
      exact ⟨trivial, ih⟩

/-- Witness for C8 at concrete characters and a concrete list. -/
theorem C8_witness :
    dashFix '—' = '-' ∧ dashFix 'a' = 'a' ∧
    normalizeDashes (normalizeDashes ("a—b–c".data)) = normalizeDashes ("a—b–c".data) :=
  ⟨C8_normalizer.1.1, C8_normalizer.2.1 'a' (by decide) (by decide),
   C8_normalizer.2.2 ("a—b–c".data)⟩

/-- Claim C9: for empty or irrelevant input, both recognizers return an
absence value rather than an exception: the order-number outcome is
`notFound` carrying the diagnostics the source logs - the normalized text
and the full list of patterns attempted - and the tracking recognizer
returns `none`. -/
theorem C9_notfound_values (t : String) (h : extractOrderNumberCore t.data = none) :
    extractOrderOutcome t = .notFound (normalizeDashes t.data) orderPatterns ∧
    extractOrderOutcome "" = .notFound [] orderPatterns ∧
    extractTrackingNumber "label.pdf" "" = none := by
  refine ⟨?_, ?_, by decide⟩
  · unfold extractOrderOutcome
    simp only [h]
  · unfold extractOrderOutcome
    have he : extractOrderNumberCore ("" : String).data = none := by decide
    simp only [he]
    rfl

/-- Witness for C9 at the empty text. -/
theorem C9_witness :
    extractOrderOutcome "" = .notFound [] orderPatterns ∧
    extractTrackingNumber "label.pdf" "" = none :=
  ⟨(C9_notfound_values "" (by decide)).2.1, (C9_notfound_values "" (by decide)).2.2⟩

/-- Lifting a character-list extraction result to the `String` level. -/
theorem toStringLevel {L R : List Char} (h : extractOrderNumberCore L = some R) :
    extractOrderNumber (String.mk L) = some (String.mk R) := by
  unfold extractOrderNumber
  show (extractOrderNumberCore L).map String.mk = _
  rw [h]
  rfl


set_option maxHeartbeats 1600000 in
/-- The long-prefix family: `EJR` + 6 digits + `-digit` is returned verbatim. -/
theorem extract_famEJR (a b c d e f s : Char)
    (ha : isDigitC a = true) (hb : isDigitC b = true) (hc : isDigitC c = true) (hd : isDigitC d = true) (he : isDigitC e = true) (hf : isDigitC f = true) (hs : isDigitC s = true) :
    extractOrderNumberCore ['E','J','R',a,b,c,d,e,f,'-',s]
      = some ['E','J','R',a,b,c,d,e,f,'-',s] := by
  simp [isDigitC] at ha hb hc hd he hf hs
  have hn : normalizeDashes ['E','J','R',a,b,c,d,e,f,'-',s]
      = ['E','J','R',a,b,c,d,e,f,'-',s] := by
    simp [ge_toNat_trueP, ge_toNat_falseP, le_toNat_trueP, le_toNat_falseP,
      eq_toNat_falseP, eq_toNat_falsePr,
      ha.1, ha.2, hb.1, hb.2, hc.1, hc.2, hd.1, hd.2, he.1, he.2, hf.1, hf.2, hs.1, hs.2]
  have e0 : tryOrderPattern ['E','J','R',a,b,c,d,e,f,'-',s] p0 = none := by
    simp [ge_toNat_trueP, ge_toNat_falseP, le_toNat_trueP, le_toNat_falseP,
      eq_toNat_falseP, eq_toNat_falsePr,
      ha.1, ha.2, hb.1, hb.2, hc.1, hc.2, hd.1, hd.2, he.1, he.2, hf.1, hf.2, hs.1, hs.2]
  have e1 : tryOrderPattern ['E','J','R',a,b,c,d,e,f,'-',s] p1 = none := by
    simp [ge_toNat_trueP, ge_toNat_falseP, le_toNat_trueP, le_toNat_falseP,
      eq_toNat_falseP, eq_toNat_falsePr,
      ha.1, ha.2, hb.1, hb.2, hc.1, hc.2, hd.1, hd.2, he.1, he.2, hf.1, hf.2, hs.1, hs.2]
  have e2 : tryOrderPattern ['E','J','R',a,b,c,d,e,f,'-',s] p2 = none := by
    simp [ge_toNat_trueP, ge_toNat_falseP, le_toNat_trueP, le_toNat_falseP,
      eq_toNat_falseP, eq_toNat_falsePr,
      ha.1, ha.2, hb.1, hb.2, hc.1, hc.2, hd.1, hd.2, he.1, he.2, hf.1, hf.2, hs.1, hs.2]
  have e3 : tryOrderPattern ['E','J','R',a,b,c,d,e,f,'-',s] p3 = none := by
    simp [ge_toNat_trueP, ge_toNat_falseP, le_toNat_trueP, le_toNat_falseP,
      eq_toNat_falseP, eq_toNat_falsePr,
      ha.1, ha.2, hb.1, hb.2, hc.1, hc.2, hd.1, hd.2, he.1, he.2, hf.1, hf.2, hs.1, hs.2]
  have e4 : tryOrderPattern ['E','J','R',a,b,c,d,e,f,'-',s] p4
      = some ['E','J','R',a,b,c,d,e,f,'-',s] := by
    simp [ge_toNat_trueP, ge_toNat_falseP, le_toNat_trueP, le_toNat_falseP,
      eq_toNat_falseP, eq_toNat_falsePr,
      ha.1, ha.2, hb.1, hb.2, hc.1, hc.2, hd.1, hd.2, he.1, he.2, hf.1, hf.2, hs.1, hs.2]
  unfold extractOrderNumberCore
  rw [hn, orderPatterns, cascadeStep e0, cascadeStep e1, cascadeStep e2, cascadeStep e3, cascadeHit e4]

set_option maxHeartbeats 1600000 in
/-- The long-prefix family: `EJC` + 6 digits + `-digit` is returned verbatim. -/
theorem extract_famEJC (a b c d e f s : Char)
    (ha : isDigitC a = true) (hb : isDigitC b = true) (hc : isDigitC c = true) (hd : isDigitC d = true) (he : isDigitC e = true) (hf : isDigitC f = true) (hs : isDigitC s = true) :
    extractOrderNumberCore ['E','J','C',a,b,c,d,e,f,'-',s]
      = some ['E','J','C',a,b,c,d,e,f,'-',s] := by
  simp [isDigitC] at ha hb hc hd he hf hs
  have hn : normalizeDashes ['E','J','C',a,b,c,d,e,f,'-',s]
      = ['E','J','C',a,b,c,d,e,f,'-',s] := by
    simp [ge_toNat_trueP, ge_toNat_falseP, le_toNat_trueP, le_toNat_falseP,
      eq_toNat_falseP, eq_toNat_falsePr,
      ha.1, ha.2, hb.1, hb.2, hc.1, hc.2, hd.1, hd.2, he.1, he.2, hf.1, hf.2, hs.1, hs.2]
  have e0 : tryOrderPattern ['E','J','C',a,b,c,d,e,f,'-',s] p0 = none := by
    simp [ge_toNat_trueP, ge_toNat_falseP, le_toNat_trueP, le_toNat_falseP,
      eq_toNat_falseP, eq_toNat_falsePr,
      ha.1, ha.2, hb.1, hb.2, hc.1, hc.2, hd.1, hd.2, he.1, he.2, hf.1, hf.2, hs.1, hs.2]
  have e1 : tryOrderPattern ['E','J','C',a,b,c,d,e,f,'-',s] p1 = none := by
    simp [ge_toNat_trueP, ge_toNat_falseP, le_toNat_trueP, le_toNat_falseP,
      eq_toNat_falseP, eq_toNat_falsePr,
      ha.1, ha.2, hb.1, hb.2, hc.1, hc.2, hd.1, hd.2, he.1, he.2, hf.1, hf.2, hs.1, hs.2]
  have e2 : tryOrderPattern ['E','J','C',a,b,c,d,e,f,'-',s] p2 = none := by
    simp [ge_toNat_trueP, ge_toNat_falseP, le_toNat_trueP, le_toNat_falseP,
      eq_toNat_falseP, eq_toNat_falsePr,
      ha.1, ha.2, hb.1, hb.2, hc.1, hc.2, hd.1, hd.2, he.1, he.2, hf.1, hf.2, hs.1, hs.2]
  have e3 : tryOrderPattern ['E','J','C',a,b,c,d,e,f,'-',s] p3 = none := by
    simp [ge_toNat_trueP, ge_toNat_falseP, le_toNat_trueP, le_toNat_falseP,
      eq_toNat_falseP, eq_toNat_falsePr,
      ha.1, ha.2, hb.1, hb.2, hc.1, hc.2, hd.1, hd.2, he.1, he.2, hf.1, hf.2, hs.1, hs.2]
  have e4 : tryOrderPattern ['E','J','C',a,b,c,d,e,f,'-',s] p4
      = some ['E','J','C',a,b,c,d,e,f,'-',s] := by
    simp [ge_toNat_trueP, ge_toNat_falseP, le_toNat_trueP, le_toNat_falseP,
      eq_toNat_falseP, eq_toNat_falsePr,
      ha.1, ha.2, hb.1, hb.2, hc.1, hc.2, hd.1, hd.2, he.1, he.2, hf.1, hf.2, hs.1, hs.2]
  unfold extractOrderNumberCore
  rw [hn, orderPatterns, cascadeStep e0, cascadeStep e1, cascadeStep e2, cascadeStep e3, cascadeHit e4]

set_option maxHeartbeats 1600000 in
/-- The long-prefix family: `MH` + 6 digits + `-digit` is returned verbatim. -/
theorem extract_famMH (a b c d e f s : Char)
    (ha : isDigitC a = true) (hb : isDigitC b = true) (hc : isDigitC c = true) (hd : isDigitC d = true) (he : isDigitC e = true) (hf : isDigitC f = true) (hs : isDigitC s = true) :
    extractOrderNumberCore ['M','H',a,b,c,d,e,f,'-',s]
      = some ['M','H',a,b,c,d,e,f,'-',s] := by
  simp [isDigitC] at ha hb hc hd he hf hs
  have hn : normalizeDashes ['M','H',a,b,c,d,e,f,'-',s]
      = ['M','H',a,b,c,d,e,f,'-',s] := by
    simp [ge_toNat_trueP, ge_toNat_falseP, le_toNat_trueP, le_toNat_falseP,
      eq_toNat_falseP, eq_toNat_falsePr,
      ha.1, ha.2, hb.1, hb.2, hc.1, hc.2, hd.1, hd.2, he.1, he.2, hf.1, hf.2, hs.1, hs.2]
  have e0 : tryOrderPattern ['M','H',a,b,c,d,e,f,'-',s] p0 = none := by
    simp [ge_toNat_trueP, ge_toNat_falseP, le_toNat_trueP, le_toNat_falseP,
      eq_toNat_falseP, eq_toNat_falsePr,
      ha.1, ha.2, hb.1, hb.2, hc.1, hc.2, hd.1, hd.2, he.1, he.2, hf.1, hf.2, hs.1, hs.2]
  have e1 : tryOrderPattern ['M','H',a,b,c,d,e,f,'-',s] p1 = none := by
    simp [ge_toNat_trueP, ge_toNat_falseP, le_toNat_trueP, le_toNat_falseP,
      eq_toNat_falseP, eq_toNat_falsePr,
      ha.1, ha.2, hb.1, hb.2, hc.1, hc.2, hd.1, hd.2, he.1, he.2, hf.1, hf.2, hs.1, hs.2]
  have e2 : tryOrderPattern ['M','H',a,b,c,d,e,f,'-',s] p2 = none := by
    simp [ge_toNat_trueP, ge_toNat_falseP, le_toNat_trueP, le_toNat_falseP,
      eq_toNat_falseP, eq_toNat_falsePr,
      ha.1, ha.2, hb.1, hb.2, hc.1, hc.2, hd.1, hd.2, he.1, he.2, hf.1, hf.2, hs.1, hs.2]
  have e3 : tryOrderPattern ['M','H',a,b,c,d,e,f,'-',s] p3 = none := by
    simp [ge_toNat_trueP, ge_toNat_falseP, le_toNat_trueP, le_toNat_falseP,
      eq_toNat_falseP, eq_toNat_falsePr,
      ha.1, ha.2, hb.1, hb.2, hc.1, hc.2, hd.1, hd.2, he.1, he.2, hf.1, hf.2, hs.1, hs.2]
  have e4 : tryOrderPattern ['M','H',a,b,c,d,e,f,'-',s] p4
      = some ['M','H',a,b,c,d,e,f,'-',s] := by
    simp [ge_toNat_trueP, ge_toNat_falseP, le_toNat_trueP, le_toNat_falseP,
      eq_toNat_falseP, eq_toNat_falsePr,
      ha.1, ha.2, hb.1, hb.2, hc.1, hc.2, hd.1, hd.2, he.1, he.2, hf.1, hf.2, hs.1, hs.2]
  unfold extractOrderNumberCore
  rw [hn, orderPatterns, cascadeStep e0, cascadeStep e1, cascadeStep e2, cascadeStep e3, cascadeHit e4]

set_option maxHeartbeats 1600000 in
/-- The short-prefix family: `R` + 4 digits + `-digit` is returned verbatim. -/
theorem extract_famR (a b c d s : Char)
    (ha : isDigitC a = true) (hb : isDigitC b = true) (hc : isDigitC c = true) (hd : isDigitC d = true) (hs : isDigitC s = true) :
    extractOrderNumberCore ['R',a,b,c,d,'-',s]
      = some ['R',a,b,c,d,'-',s] := by
  simp [isDigitC] at ha hb hc hd hs
  have hn : normalizeDashes ['R',a,b,c,d,'-',s]
      = ['R',a,b,c,d,'-',s] := by
    simp [ge_toNat_trueP, ge_toNat_falseP, le_toNat_trueP, le_toNat_falseP,
      eq_toNat_falseP, eq_toNat_falsePr,
      ha.1, ha.2, hb.1, hb.2, hc.1, hc.2, hd.1, hd.2, hs.1, hs.2]
  have e0 : tryOrderPattern ['R',a,b,c,d,'-',s] p0 = none := by
    simp [ge_toNat_trueP, ge_toNat_falseP, le_toNat_trueP, le_toNat_falseP,
      eq_toNat_falseP, eq_toNat_falsePr,
      ha.1, ha.2, hb.1, hb.2, hc.1, hc.2, hd.1, hd.2, hs.1, hs.2]
  have e1 : tryOrderPattern ['R',a,b,c,d,'-',s] p1 = none := by
    simp [ge_toNat_trueP, ge_toNat_falseP, le_toNat_trueP, le_toNat_falseP,
      eq_toNat_falseP, eq_toNat_falsePr,
      ha.1, ha.2, hb.1, hb.2, hc.1, hc.2, hd.1, hd.2, hs.1, hs.2]
  have e2 : tryOrderPattern ['R',a,b,c,d,'-',s] p2 = none := by
    simp [ge_toNat_trueP, ge_toNat_falseP, le_toNat_trueP, le_toNat_falseP,
      eq_toNat_falseP, eq_toNat_falsePr,
      ha.1, ha.2, hb.1, hb.2, hc.1, hc.2, hd.1, hd.2, hs.1, hs.2]
  have e3 : tryOrderPattern ['R',a,b,c,d,'-',s] p3
      = some ['R',a,b,c,d,'-',s] := by
    simp [ge_toNat_trueP, ge_toNat_falseP, le_toNat_trueP, le_toNat_falseP,
      eq_toNat_falseP, eq_toNat_falsePr,
      ha.1, ha.2, hb.1, hb.2, hc.1, hc.2, hd.1, hd.2, hs.1, hs.2]
  unfold extractOrderNumberCore
  rw [hn, orderPatterns, cascadeStep e0, cascadeStep e1, cascadeStep e2, cascadeHit e3]

set_option maxHeartbeats 1600000 in
/-- The short-prefix family with a lowercase head: `r` + 4 digits + `-digit` is returned with the prefix re-cased to `R`. -/
theorem extract_famRlower (a b c d s : Char)
    (ha : isDigitC a = true) (hb : isDigitC b = true) (hc : isDigitC c = true) (hd : isDigitC d = true) (hs : isDigitC s = true) :
    extractOrderNumberCore ['r',a,b,c,d,'-',s]
      = some ['R',a,b,c,d,'-',s] := by
  simp [isDigitC] at ha hb hc hd hs
  have hn : normalizeDashes ['r',a,b,c,d,'-',s]
      = ['r',a,b,c,d,'-',s] := by
    simp [ge_toNat_trueP, ge_toNat_falseP, le_toNat_trueP, le_toNat_falseP,
      eq_toNat_falseP, eq_toNat_falsePr,
      ha.1, ha.2, hb.1, hb.2, hc.1, hc.2, hd.1, hd.2, hs.1, hs.2]
  have e0 : tryOrderPattern ['r',a,b,c,d,'-',s] p0 = none := by
    simp [ge_toNat_trueP, ge_toNat_falseP, le_toNat_trueP, le_toNat_falseP,
      eq_toNat_falseP, eq_toNat_falsePr,
      ha.1, ha.2, hb.1, hb.2, hc.1, hc.2, hd.1, hd.2, hs.1, hs.2]
  have e1 : tryOrderPattern ['r',a,b,c,d,'-',s] p1 = none := by
    simp [ge_toNat_trueP, ge_toNat_falseP, le_toNat_trueP, le_toNat_falseP,
      eq_toNat_falseP, eq_toNat_falsePr,
      ha.1, ha.2, hb.1, hb.2, hc.1, hc.2, hd.1, hd.2, hs.1, hs.2]
  have e2 : tryOrderPattern ['r',a,b,c,d,'-',s] p2 = none := by
    simp [ge_toNat_trueP, ge_toNat_falseP, le_toNat_trueP, le_toNat_falseP,
      eq_toNat_falseP, eq_toNat_falsePr,
      ha.1, ha.2, hb.1, hb.2, hc.1, hc.2, hd.1, hd.2, hs.1, hs.2]
  have e3 : tryOrderPattern ['r',a,b,c,d,'-',s] p3
      = some ['R',a,b,c,d,'-',s] := by
    simp [ge_toNat_trueP, ge_toNat_falseP, le_toNat_trueP, le_toNat_falseP,
      eq_toNat_falseP, eq_toNat_falsePr,
      ha.1, ha.2, hb.1, hb.2, hc.1, hc.2, hd.1, hd.2, hs.1, hs.2]
  unfold extractOrderNumberCore
  rw [hn, orderPatterns, cascadeStep e0, cascadeStep e1, cascadeStep e2, cascadeHit e3]

set_option maxHeartbeats 1600000 in
/-- The short-prefix family: `AL` + 4 digits + `-digit` is returned verbatim. -/
theorem extract_famAL (a b c d s : Char)
    (ha : isDigitC a = true) (hb : isDigitC b = true) (hc : isDigitC c = true) (hd : isDigitC d = true) (hs : isDigitC s = true) :
    extractOrderNumberCore ['A','L',a,b,c,d,'-',s]
      = some ['A','L',a,b,c,d,'-',s] := by
  simp [isDigitC] at ha hb hc hd hs
  have hn : normalizeDashes ['A','L',a,b,c,d,'-',s]
      = ['A','L',a,b,c,d,'-',s] := by
    simp [ge_toNat_trueP, ge_toNat_falseP, le_toNat_trueP, le_toNat_falseP,
      eq_toNat_falseP, eq_toNat_falsePr,
      ha.1, ha.2, hb.1, hb.2, hc.1, hc.2, hd.1, hd.2, hs.1, hs.2]
  have e0 : tryOrderPattern ['A','L',a,b,c,d,'-',s] p0 = none := by
    simp [ge_toNat_trueP, ge_toNat_falseP, le_toNat_trueP, le_toNat_falseP,
      eq_toNat_falseP, eq_toNat_falsePr,
      ha.1, ha.2, hb.1, hb.2, hc.1, hc.2, hd.1, hd.2, hs.1, hs.2]
  have e1 : tryOrderPattern ['A','L',a,b,c,d,'-',s] p1 = none := by
    simp [ge_toNat_trueP, ge_toNat_falseP, le_toNat_trueP, le_toNat_falseP,
      eq_toNat_falseP, eq_toNat_falsePr,
      ha.1, ha.2, hb.1, hb.2, hc.1, hc.2, hd.1, hd.2, hs.1, hs.2]
  have e2 : tryOrderPattern ['A','L',a,b,c,d,'-',s] p2 = none := by
    simp [ge_toNat_trueP, ge_toNat_falseP, le_toNat_trueP, le_toNat_falseP,
      eq_toNat_falseP, eq_toNat_falsePr,
      ha.1, ha.2, hb.1, hb.2, hc.1, hc.2, hd.1, hd.2, hs.1, hs.2]
  have e3 : tryOrderPattern ['A','L',a,b,c,d,'-',s] p3
      = some ['A','L',a,b,c,d,'-',s] := by
    simp [ge_toNat_trueP, ge_toNat_falseP, le_toNat_trueP, le_toNat_falseP,
      eq_toNat_falseP, eq_toNat_falsePr,
      ha.1, ha.2, hb.1, hb.2, hc.1, hc.2, hd.1, hd.2, hs.1, hs.2]
  unfold extractOrderNumberCore
  rw [hn, orderPatterns, cascadeStep e0, cascadeStep e1, cascadeStep e2, cascadeHit e3]

set_option maxHeartbeats 1600000 in
/-- The EL-wrapped family: `EL` + 6 digits + `EL` + `-digit` is returned verbatim. -/
theorem extract_famEL (a b c d e f s : Char)
    (ha : isDigitC a = true) (hb : isDigitC b = true) (hc : isDigitC c = true) (hd : isDigitC d = true) (he : isDigitC e = true) (hf : isDigitC f = true) (hs : isDigitC s = true) :
    extractOrderNumberCore ['E','L',a,b,c,d,e,f,'E','L','-',s]
      = some ['E','L',a,b,c,d,e,f,'E','L','-',s] := by
  simp [isDigitC] at ha hb hc hd he hf hs
  have hn : normalizeDashes ['E','L',a,b,c,d,e,f,'E','L','-',s]
      = ['E','L',a,b,c,d,e,f,'E','L','-',s] := by
    simp [ge_toNat_trueP, ge_toNat_falseP, le_toNat_trueP, le_toNat_falseP,
      eq_toNat_falseP, eq_toNat_falsePr,
      ha.1, ha.2, hb.1, hb.2, hc.1, hc.2, hd.1, hd.2, he.1, he.2, hf.1, hf.2, hs.1, hs.2]
  have e0 : tryOrderPattern ['E','L',a,b,c,d,e,f,'E','L','-',s] p0 = none := by
    simp [ge_toNat_trueP, ge_toNat_falseP, le_toNat_trueP, le_toNat_falseP,
      eq_toNat_falseP, eq_toNat_falsePr,
      ha.1, ha.2, hb.1, hb.2, hc.1, hc.2, hd.1, hd.2, he.1, he.2, hf.1, hf.2, hs.1, hs.2]
  have e1 : tryOrderPattern ['E','L',a,b,c,d,e,f,'E','L','-',s] p1 = none := by
    simp [ge_toNat_trueP, ge_toNat_falseP, le_toNat_trueP, le_toNat_falseP,
      eq_toNat_falseP, eq_toNat_falsePr,
      ha.1, ha.2, hb.1, hb.2, hc.1, hc.2, hd.1, hd.2, he.1, he.2, hf.1, hf.2, hs.1, hs.2]
  have e2 : tryOrderPattern ['E','L',a,b,c,d,e,f,'E','L','-',s] p2
      = some ['E','L',a,b,c,d,e,f,'E','L','-',s] := by
    simp [ge_toNat_trueP, ge_toNat_falseP, le_toNat_trueP, le_toNat_falseP,
      eq_toNat_falseP, eq_toNat_falsePr,
      ha.1, ha.2, hb.1, hb.2, hc.1, hc.2, hd.1, hd.2, he.1, he.2, hf.1, hf.2, hs.1, hs.2]
  unfold extractOrderNumberCore
  rw [hn, orderPatterns, cascadeStep e0, cascadeStep e1, cascadeHit e2]

set_option maxHeartbeats 1600000 in
/-- The EL-wrapped family in lowercase: every `el` occurrence is uppercased. -/
theorem extract_famELlower (a b c d e f s : Char)
    (ha : isDigitC a = true) (hb : isDigitC b = true) (hc : isDigitC c = true) (hd : isDigitC d = true) (he : isDigitC e = true) (hf : isDigitC f = true) (hs : isDigitC s = true) :
    extractOrderNumberCore ['e','l',a,b,c,d,e,f,'e','l','-',s]
      = some ['E','L',a,b,c,d,e,f,'E','L','-',s] := by
  simp [isDigitC] at ha hb hc hd he hf hs
  have hn : normalizeDashes ['e','l',a,b,c,d,e,f,'e','l','-',s]
      = ['e','l',a,b,c,d,e,f,'e','l','-',s] := by
    simp [ge_toNat_trueP, ge_toNat_falseP, le_toNat_trueP, le_toNat_falseP,
      eq_toNat_falseP, eq_toNat_falsePr,
      ha.1, ha.2, hb.1, hb.2, hc.1, hc.2, hd.1, hd.2, he.1, he.2, hf.1, hf.2, hs.1, hs.2]
  have e0 : tryOrderPattern ['e','l',a,b,c,d,e,f,'e','l','-',s] p0 = none := by
    simp [ge_toNat_trueP, ge_toNat_falseP, le_toNat_trueP, le_toNat_falseP,
      eq_toNat_falseP, eq_toNat_falsePr,
      ha.1, ha.2, hb.1, hb.2, hc.1, hc.2, hd.1, hd.2, he.1, he.2, hf.1, hf.2, hs.1, hs.2]
  have e1 : tryOrderPattern ['e','l',a,b,c,d,e,f,'e','l','-',s] p1 = none := by
    simp [ge_toNat_trueP, ge_toNat_falseP, le_toNat_trueP, le_toNat_falseP,
      eq_toNat_falseP, eq_toNat_falsePr,
      ha.1, ha.2, hb.1, hb.2, hc.1, hc.2, hd.1, hd.2, he.1, he.2, hf.1, hf.2, hs.1, hs.2]
  have e2 : tryOrderPattern ['e','l',a,b,c,d,e,f,'e','l','-',s] p2
      = some ['E','L',a,b,c,d,e,f,'E','L','-',s] := by
    simp [ge_toNat_trueP, ge_toNat_falseP, le_toNat_trueP, le_toNat_falseP,
      eq_toNat_falseP, eq_toNat_falsePr,
      ha.1, ha.2, hb.1, hb.2, hc.1, hc.2, hd.1, hd.2, he.1, he.2, hf.1, hf.2, hs.1, hs.2]
  unfold extractOrderNumberCore
  rw [hn, orderPatterns, cascadeStep e0, cascadeStep e1, cascadeHit e2]

set_option maxHeartbeats 1600000 in
/-- The leading-2 numeric family: `2` + 9 digits + `-digit` is returned verbatim. -/
theorem extract_famLead2 (a b c d e f g h i s : Char)
    (ha : isDigitC a = true) (hb : isDigitC b = true) (hc : isDigitC c = true) (hd : isDigitC d = true) (he : isDigitC e = true) (hf : isDigitC f = true) (hg : isDigitC g = true) (hh : isDigitC h = true) (hi : isDigitC i = true) (hs : isDigitC s = true) :
    extractOrderNumberCore ['2',a,b,c,d,e,f,g,h,i,'-',s]
      = some ['2',a,b,c,d,e,f,g,h,i,'-',s] := by
  simp [isDigitC] at ha hb hc hd he hf hg hh hi hs
  have hn : normalizeDashes ['2',a,b,c,d,e,f,g,h,i,'-',s]
      = ['2',a,b,c,d,e,f,g,h,i,'-',s] := by
    simp [ge_toNat_trueP, ge_toNat_falseP, le_toNat_trueP, le_toNat_falseP,
      eq_toNat_falseP, eq_toNat_falsePr,
      ha.1, ha.2, hb.1, hb.2, hc.1, hc.2, hd.1, hd.2, he.1, he.2, hf.1, hf.2, hg.1, hg.2, hh.1, hh.2, hi.1, hi.2, hs.1, hs.2]
  have e0 : tryOrderPattern ['2',a,b,c,d,e,f,g,h,i,'-',s] p0 = none := by
    simp [ge_toNat_trueP, ge_toNat_falseP, le_toNat_trueP, le_toNat_falseP,
      eq_toNat_falseP, eq_toNat_falsePr,
      ha.1, ha.2, hb.1, hb.2, hc.1, hc.2, hd.1, hd.2, he.1, he.2, hf.1, hf.2, hg.1, hg.2, hh.1, hh.2, hi.1, hi.2, hs.1, hs.2]
  have e1 : tryOrderPattern ['2',a,b,c,d,e,f,g,h,i,'-',s] p1
      = some ['2',a,b,c,d,e,f,g,h,i,'-',s] := by
    simp [ge_toNat_trueP, ge_toNat_falseP, le_toNat_trueP, le_toNat_falseP,
      eq_toNat_falseP, eq_toNat_falsePr,
      ha.1, ha.2, hb.1, hb.2, hc.1, hc.2, hd.1, hd.2, he.1, he.2, hf.1, hf.2, hg.1, hg.2, hh.1, hh.2, hi.1, hi.2, hs.1, hs.2]
  unfold extractOrderNumberCore
  rw [hn, orderPatterns, cascadeStep e0, cascadeHit e1]

set_option maxHeartbeats 1600000 in
/-- The bare 9-digit family: 9 digits + `-digit` is returned verbatim. -/
theorem extract_fam9 (a b c d e f g h i s : Char)
    (ha : isDigitC a = true) (hb : isDigitC b = true) (hc : isDigitC c = true) (hd : isDigitC d = true) (he : isDigitC e = true) (hf : isDigitC f = true) (hg : isDigitC g = true) (hh : isDigitC h = true) (hi : isDigitC i = true) (hs : isDigitC s = true) :
    extractOrderNumberCore [a,b,c,d,e,f,g,h,i,'-',s]
      = some [a,b,c,d,e,f,g,h,i,'-',s] := by
  simp [isDigitC] at ha hb hc hd he hf hg hh hi hs
  have hn : normalizeDashes [a,b,c,d,e,f,g,h,i,'-',s]
      = [a,b,c,d,e,f,g,h,i,'-',s] := by
    simp [ge_toNat_trueP, ge_toNat_falseP, le_toNat_trueP, le_toNat_falseP,
      eq_toNat_falseP, eq_toNat_falsePr,
      ha.1, ha.2, hb.1, hb.2, hc.1, hc.2, hd.1, hd.2, he.1, he.2, hf.1, hf.2, hg.1, hg.2, hh.1, hh.2, hi.1, hi.2, hs.1, hs.2]
  have e0 : tryOrderPattern [a,b,c,d,e,f,g,h,i,'-',s] p0
      = some [a,b,c,d,e,f,g,h,i,'-',s] := by
    simp [ge_toNat_trueP, ge_toNat_falseP, le_toNat_trueP, le_toNat_falseP,
      eq_toNat_falseP, eq_toNat_falsePr,
      ha.1, ha.2, hb.1, hb.2, hc.1, hc.2, hd.1, hd.2, he.1, he.2, hf.1, hf.2, hg.1, hg.2, hh.1, hh.2, hi.1, hi.2, hs.1, hs.2]
  unfold extractOrderNumberCore
  rw [hn, orderPatterns, cascadeHit e0]

set_option maxHeartbeats 1600000 in
/-- The bare 6-digit family: 6 digits + `-digit` is returned verbatim. -/
theorem extract_fam6 (a b c d e f s : Char)
    (ha : isDigitC a = true) (hb : isDigitC b = true) (hc : isDigitC c = true) (hd : isDigitC d = true) (he : isDigitC e = true) (hf : isDigitC f = true) (hs : isDigitC s = true) :
    extractOrderNumberCore [a,b,c,d,e,f,'-',s]
      = some [a,b,c,d,e,f,'-',s] := by
  simp [isDigitC] at ha hb hc hd he hf hs
  have hn : normalizeDashes [a,b,c,d,e,f,'-',s]
      = [a,b,c,d,e,f,'-',s] := by
    simp [ge_toNat_trueP, ge_toNat_falseP, le_toNat_trueP, le_toNat_falseP,
      eq_toNat_falseP, eq_toNat_falsePr,
      ha.1, ha.2, hb.1, hb.2, hc.1, hc.2, hd.1, hd.2, he.1, he.2, hf.1, hf.2, hs.1, hs.2]
  have e0 : tryOrderPattern [a,b,c,d,e,f,'-',s] p0 = none := by
    simp [ge_toNat_trueP, ge_toNat_falseP, le_toNat_trueP, le_toNat_falseP,
      eq_toNat_falseP, eq_toNat_falsePr,
      ha.1, ha.2, hb.1, hb.2, hc.1, hc.2, hd.1, hd.2, he.1, he.2, hf.1, hf.2, hs.1, hs.2]
  have e1 : tryOrderPattern [a,b,c,d,e,f,'-',s] p1 = none := by
    simp [ge_toNat_trueP, ge_toNat_falseP, le_toNat_trueP, le_toNat_falseP,
      eq_toNat_falseP, eq_toNat_falsePr,
      ha.1, ha.2, hb.1, hb.2, hc.1, hc.2, hd.1, hd.2, he.1, he.2, hf.1, hf.2, hs.1, hs.2]
  have e2 : tryOrderPattern [a,b,c,d,e,f,'-',s] p2 = none := by
    simp [ge_toNat_trueP, ge_toNat_falseP, le_toNat_trueP, le_toNat_falseP,
      eq_toNat_falseP, eq_toNat_falsePr,
      ha.1, ha.2, hb.1, hb.2, hc.1, hc.2, hd.1, hd.2, he.1, he.2, hf.1, hf.2, hs.1, hs.2]
  have e3 : tryOrderPattern [a,b,c,d,e,f,'-',s] p3 = none := by
    simp [ge_toNat_trueP, ge_toNat_falseP, le_toNat_trueP, le_toNat_falseP,
      eq_toNat_falseP, eq_toNat_falsePr,
      ha.1, ha.2, hb.1, hb.2, hc.1, hc.2, hd.1, hd.2, he.1, he.2, hf.1, hf.2, hs.1, hs.2]
  have e4 : tryOrderPattern [a,b,c,d,e,f,'-',s] p4 = none := by
    simp [ge_toNat_trueP, ge_toNat_falseP, le_toNat_trueP, le_toNat_falseP,
      eq_toNat_falseP, eq_toNat_falsePr,
      ha.1, ha.2, hb.1, hb.2, hc.1, hc.2, hd.1, hd.2, he.1, he.2, hf.1, hf.2, hs.1, hs.2]
  have e5 : tryOrderPattern [a,b,c,d,e,f,'-',s] p5 = none := by
    simp [ge_toNat_trueP, ge_toNat_falseP, le_toNat_trueP, le_toNat_falseP,
      eq_toNat_falseP, eq_toNat_falsePr,
      ha.1, ha.2, hb.1, hb.2, hc.1, hc.2, hd.1, hd.2, he.1, he.2, hf.1, hf.2, hs.1, hs.2]
  have e6 : tryOrderPattern [a,b,c,d,e,f,'-',s] p6 = none := by
    simp [ge_toNat_trueP, ge_toNat_falseP, le_toNat_trueP, le_toNat_falseP,
      eq_toNat_falseP, eq_toNat_falsePr,
      ha.1, ha.2, hb.1, hb.2, hc.1, hc.2, hd.1, hd.2, he.1, he.2, hf.1, hf.2, hs.1, hs.2]
  have e7 : tryOrderPattern [a,b,c,d,e,f,'-',s] p7
      = some [a,b,c,d,e,f,'-',s] := by
    simp [ge_toNat_trueP, ge_toNat_falseP, le_toNat_trueP, le_toNat_falseP,
      eq_toNat_falseP, eq_toNat_falsePr,
      ha.1, ha.2, hb.1, hb.2, hc.1, hc.2, hd.1, hd.2, he.1, he.2, hf.1, hf.2, hs.1, hs.2]
  unfold extractOrderNumberCore
  rw [hn, orderPatterns, cascadeStep e0, cascadeStep e1, cascadeStep e2, cascadeStep e3, cascadeStep e4, cascadeStep e5, cascadeStep e6, cascadeHit e7]

/-- Claim C4: for every string in one of the six family canonical formats
with a `-digit` suffix segment - long-prefix `EJR`/`EJC`/`MH` + 6 digits,
short-prefix `R`/`AL` + 4 digits, `EL` + 6 digits + `EL`, `2` + 9 digits,
bare 9 digits, bare 6 digits - running `extractOrderNumber` on text
consisting of exactly that string returns exactly that string with the
prefix case-normalized (a lowercase `r` head is re-cased to `R`, lowercase
`el` is uppercased to `EL`). -/
theorem C4_canonical_formats (a b c d e f g h i s : Char)
    (ha : isDigitC a = true) (hb : isDigitC b = true) (hc : isDigitC c = true)
    (hd : isDigitC d = true) (he : isDigitC e = true) (hf : isDigitC f = true)
    (hg : isDigitC g = true) (hh : isDigitC h = true) (hi : isDigitC i = true)
    (hs : isDigitC s = true) :
    extractOrderNumber (String.mk ['E','J','R',a,b,c,d,e,f,'-',s])
      = some (String.mk ['E','J','R',a,b,c,d,e,f,'-',s]) ∧
    extractOrderNumber (String.mk ['E','J','C',a,b,c,d,e,f,'-',s])
      = some (String.mk ['E','J','C',a,b,c,d,e,f,'-',s]) ∧
    extractOrderNumber (String.mk ['M','H',a,b,c,d,e,f,'-',s])
      = some (String.mk ['M','H',a,b,c,d,e,f,'-',s]) ∧
    extractOrderNumber (String.mk ['R',a,b,c,d,'-',s])
      = some (String.mk ['R',a,b,c,d,'-',s]) ∧
    extractOrderNumber (String.mk ['r',a,b,c,d,'-',s])
      = some (String.mk ['R',a,b,c,d,'-',s]) ∧
    extractOrderNumber (String.mk ['A','L',a,b,c,d,'-',s])
      = some (String.mk ['A','L',a,b,c,d,'-',s]) ∧
    extractOrderNumber (String.mk ['E','L',a,b,c,d,e,f,'E','L','-',s])
      = some (String.mk ['E','L',a,b,c,d,e,f,'E','L','-',s]) ∧
    extractOrderNumber (String.mk ['e','l',a,b,c,d,e,f,'e','l','-',s])
      = some (String.mk ['E','L',a,b,c,d,e,f,'E','L','-',s]) ∧
    extractOrderNumber (String.mk ['2',a,b,c,d,e,f,g,h,i,'-',s])
      = some (String.mk ['2',a,b,c,d,e,f,g,h,i,'-',s]) ∧
    extractOrderNumber (String.mk [a,b,c,d,e,f,g,h,i,'-',s])
      = some (String.mk [a,b,c,d,e,f,g,h,i,'-',s]) ∧
    extractOrderNumber (String.mk [a,b,c,d,e,f,'-',s])
      = some (String.mk [a,b,c,d,e,f,'-',s]) :=
  ⟨toStringLevel (extract_famEJR a b c d e f s ha hb hc hd he hf hs),
   toStringLevel (extract_famEJC a b c d e f s ha hb hc hd he hf hs),
   toStringLevel (extract_famMH a b c d e f s ha hb hc hd he hf hs),
   toStringLevel (extract_famR a b c d s ha hb hc hd hs),
   toStringLevel (extract_famRlower a b c d s ha hb hc hd hs),
   toStringLevel (extract_famAL a b c d s ha hb hc hd hs),
   toStringLevel (extract_famEL a b c d e f s ha hb hc hd he hf hs),
   toStringLevel (extract_famELlower a b c d e f s ha hb hc hd he hf hs),
   toStringLevel (extract_famLead2 a b c d e f g h i s ha hb hc hd he hf hg hh hi hs),
   toStringLevel (extract_fam9 a b c d e f g h i s ha hb hc hd he hf hg hh hi hs),
   toStringLevel (extract_fam6 a b c d e f s ha hb hc hd he hf hs)⟩

/-- Witness for C4 at concrete digits, covering the claim's examples. -/
theorem C4_witness :
    extractOrderNumber "EJR123456-1" = some "EJR123456-1" ∧
    extractOrderNumber "EJC123456-1" = some "EJC123456-1" ∧
    extractOrderNumber "MH123456-1" = some "MH123456-1" ∧
    extractOrderNumber "R1234-1" = some "R1234-1" ∧
    extractOrderNumber "r1234-1" = some "R1234-1" ∧
    extractOrderNumber "AL1234-1" = some "AL1234-1" ∧
    extractOrderNumber "EL123456EL-1" = some "EL123456EL-1" ∧
    extractOrderNumber "el123456el-1" = some "EL123456EL-1" ∧
    extractOrderNumber "2123456789-1" = some "2123456789-1" ∧
    extractOrderNumber "123456789-1" = some "123456789-1" ∧
    extractOrderNumber "123456-1" = some "123456-1" :=
  C4_canonical_formats '1' '2' '3' '4' '5' '6' '7' '8' '9' '1'
    (by decide) (by decide) (by decide) (by decide) (by decide) (by decide)
    (by decide) (by decide) (by decide) (by decide)

set_option maxHeartbeats 1600000 in
/-- In text holding a bare 6-digit `-digit` candidate followed by the
labelled candidate `Order #R3817-1`, the cascade returns `R3817-1`. -/
theorem extract_labeled (a b c d e f s : Char)
    (ha : isDigitC a = true) (hb : isDigitC b = true) (hc : isDigitC c = true)
    (hd : isDigitC d = true) (he : isDigitC e = true) (hf : isDigitC f = true)
    (hs : isDigitC s = true) :
    extractOrderNumberCore
        [a,b,c,d,e,f,'-',s,' ','O','r','d','e','r',' ','#','R','3','8','1','7','-','1']
      = some ['R','3','8','1','7','-','1'] := by
  simp [isDigitC] at ha hb hc hd he hf hs
  have hn : normalizeDashes
      [a,b,c,d,e,f,'-',s,' ','O','r','d','e','r',' ','#','R','3','8','1','7','-','1']
      = [a,b,c,d,e,f,'-',s,' ','O','r','d','e','r',' ','#','R','3','8','1','7','-','1'] := by
    simp [ge_toNat_trueP, ge_toNat_falseP, le_toNat_trueP, le_toNat_falseP,
      eq_toNat_falseP, eq_toNat_falsePr,
      ha.1, ha.2, hb.1, hb.2, hc.1, hc.2, hd.1, hd.2, he.1, he.2, hf.1, hf.2, hs.1, hs.2]
  have e0 : tryOrderPattern
      [a,b,c,d,e,f,'-',s,' ','O','r','d','e','r',' ','#','R','3','8','1','7','-','1'] p0
      = none := by
    simp [ge_toNat_trueP, ge_toNat_falseP, le_toNat_trueP, le_toNat_falseP,
      eq_toNat_falseP, eq_toNat_falsePr,
      ha.1, ha.2, hb.1, hb.2, hc.1, hc.2, hd.1, hd.2, he.1, he.2, hf.1, hf.2, hs.1, hs.2]
  have e1 : tryOrderPattern
      [a,b,c,d,e,f,'-',s,' ','O','r','d','e','r',' ','#','R','3','8','1','7','-','1'] p1
      = none := by
    simp [ge_toNat_trueP, ge_toNat_falseP, le_toNat_trueP, le_toNat_falseP,
      eq_toNat_falseP, eq_toNat_falsePr,
      ha.1, ha.2, hb.1, hb.2, hc.1, hc.2, hd.1, hd.2, he.1, he.2, hf.1, hf.2, hs.1, hs.2]
  have e2 : tryOrderPattern
      [a,b,c,d,e,f,'-',s,' ','O','r','d','e','r',' ','#','R','3','8','1','7','-','1'] p2
      = none := by
    simp [ge_toNat_trueP, ge_toNat_falseP, le_toNat_trueP, le_toNat_falseP,
      eq_toNat_falseP, eq_toNat_falsePr,
      ha.1, ha.2, hb.1, hb.2, hc.1, hc.2, hd.1, hd.2, he.1, he.2, hf.1, hf.2, hs.1, hs.2]
  have e3 : tryOrderPattern
      [a,b,c,d,e,f,'-',s,' ','O','r','d','e','r',' ','#','R','3','8','1','7','-','1'] p3
      = some ['R','3','8','1','7','-','1'] := by
    simp [ge_toNat_trueP, ge_toNat_falseP, le_toNat_trueP, le_toNat_falseP,
      eq_toNat_falseP, eq_toNat_falsePr,
      ha.1, ha.2, hb.1, hb.2, hc.1, hc.2, hd.1, hd.2, he.1, he.2, hf.1, hf.2, hs.1, hs.2]
  unfold extractOrderNumberCore
  rw [hn, orderPatterns, cascadeStep e0, cascadeStep e1, cascadeStep e2, cascadeHit e3]

/-- Counterexample to C5 as stated: `R9999 111111-1 Order #R3817-1`
contains both the labelled match `Order #R3817-1` and an unrelated bare
6-digit sequence with a `-digit` suffix, yet the extractor returns the bare
candidate `111111-1`: the short-prefix pattern's leftmost match is the
invalid `R9999`, so that pattern is abandoned, and the bare-6-digit-run
pattern wins before the labelled patterns - which would have produced the
validated `R3817-1` - are ever reached. -/
theorem C5_counterexample :
    extractOrderNumber "R9999 111111-1 Order #R3817-1" = some "111111-1" ∧
    tryOrderPattern (normalizeDashes ("R9999 111111-1 Order #R3817-1".data)) p13
      = some ("R3817-1".data) ∧
    searchPat p3 none (normalizeDashes ("R9999 111111-1 Order #R3817-1".data))
      = some ("R9999".data, "R9999".data) ∧
    isValidFormat (normalizeOrderCase (cleanNumber ("R9999".data))) = false ∧
    ("111111-1" : String) ≠ "R3817-1" := by decide

/-- Claim C5 (amended): for every text consisting of an unrelated bare
6-digit `-digit` candidate followed by the labelled match `Order #R3817-1`,
the extractor returns the labelled match `R3817-1`, not the bare candidate -
the short-prefix family pattern precedes the bare-digit-run patterns in the
cascade.  This does not extend to every text containing both items: an
additional invalid short-prefix token such as `R9999` earlier in the text
makes the bare candidate win (see the counterexample). -/
theorem C5_labeled_wins (a b c d e f s : Char)
    (ha : isDigitC a = true) (hb : isDigitC b = true) (hc : isDigitC c = true)
    (hd : isDigitC d = true) (he : isDigitC e = true) (hf : isDigitC f = true)
    (hs : isDigitC s = true) :
    extractOrderNumber
        (String.mk [a,b,c,d,e,f,'-',s,' ','O','r','d','e','r',' ','#','R','3','8','1','7','-','1'])
      = some "R3817-1" ∧
    (String.mk [a,b,c,d,e,f,'-',s] : String) ≠ "R3817-1" := by
  constructor
  · exact toStringLevel (extract_labeled a b c d e f s ha hb hc hd he hf hs)
  · intro hEq
    have hdata : ([a,b,c,d,e,f,'-',s] : List Char) = ("R3817-1" : String).data :=
      congrArg String.data hEq
    rw [show ("R3817-1" : String).data = ['R','3','8','1','7','-','1'] from rfl] at hdata
    cases hdata

/-- Witness for C5 at the concrete bare candidate `123456-7`. -/
theorem C5_witness :
    extractOrderNumber "123456-7 Order #R3817-1" = some "R3817-1" ∧
    ("123456-7" : String) ≠ "R3817-1" :=
  C5_labeled_wins '1' '2' '3' '4' '5' '6' '7'
    (by decide) (by decide) (by decide) (by decide) (by decide) (by decide) (by decide)
